import Mathlib

/-!
Verification development for `mv_test_setup.py` (pyglasma3d benchmark setup
script).  The script's pieces are shallowly embedded here:

* the CLI argument conversion layer (`check_steps`, the `int`/`float`
  converters and the `choices` checks of argparse) over strings, producing
  exact rational values;
* the parameter-derivation block (lines 199-216 of the source) over the real
  numbers, with `**` modelled by `Real.rpow`, `np.sqrt` by `Real.sqrt` and
  `np.log` by `Real.log`;
* the environment-variable writes (lines 125-127) as explicit state passing;
* the mock simulation loop (lines 224-232) as a list of emitted step indices.
-/

namespace MvTestSetup

/-- Decidable equality for `Except`, needed to evaluate the argparse layer
on concrete inputs by `decide`. -/
instance {ε α : Type} [DecidableEq ε] [DecidableEq α] : DecidableEq (Except ε α) := fun a b =>
  match a, b with
  | .error x, .error y =>
    if h : x = y then .isTrue (congrArg Except.error h)
    else .isFalse (fun hc => h (Except.error.inj hc))
  | .error _, .ok _ => .isFalse (fun hc => Except.noConfusion hc)
  | .ok _, .error _ => .isFalse (fun hc => Except.noConfusion hc)
  | .ok x, .ok y =>
    if h : x = y then .isTrue (congrArg Except.ok h)
    else .isFalse (fun hc => h (Except.ok.inj hc))

/-! ### Python-style string conversion, modelled for the argparse layer

`pyInt` models Python's `int(str)` on plain decimal literals: an optional
sign followed by at least one digit.  `pyFloat` models `float(str)` on plain
decimal literals `[sign] digits [. digits]`, returning the exact rational
value.  (Whitespace trimming, underscores, exponents, `inf`/`nan` are not
exercised by any input considered here.) -/

/-- Value of a nonempty all-digit character list, `none` otherwise. -/
def digitsVal (cs : List Char) : Option Nat :=
  if cs = [] then none
  else
    cs.foldl
      (fun acc c =>
        match acc with
        | none => none
        | some n => if c.isDigit then some (10 * n + (c.toNat - 48)) else none)
      (some 0)

/-- Python `int(s)` on decimal literals with optional sign. -/
def pyInt (s : String) : Option Int :=
  match s.toList with
  | '-' :: rest => (digitsVal rest).map (fun n => -(n : Int))
  | '+' :: rest => (digitsVal rest).map (fun n => (n : Int))
  | l => (digitsVal l).map (fun n => (n : Int))

/-- Split a character list at the first dot: integer part, and the fraction
part when a dot is present. -/
def splitOnDot : List Char → List Char × Option (List Char)
  | [] => ([], none)
  | c :: rest =>
    if c = '.' then ([], some rest)
    else
      let p := splitOnDot rest
      (c :: p.1, p.2)

/-- Exact decimal value `mant / 10 ^ dexp`, the result of a successful
`float()` conversion. -/
structure PyDec where
  mant : Int
  dexp : Nat
deriving DecidableEq

/-- Rational value denoted by a parsed decimal. -/
def PyDec.val (d : PyDec) : ℚ := (d.mant : ℚ) / 10 ^ d.dexp

/-- Unsigned decimal literal `digits [. digits]` as mantissa and decimal
exponent; a second dot in the fraction part makes `digitsVal` fail, as
`float()` does. -/
def pyFloatCore (cs : List Char) : Option (Nat × Nat) :=
  match splitOnDot cs with
  | (a, none) => (digitsVal a).map (fun n => (n, 0))
  | (a, some b) =>
    if a = [] && b = [] then none
    else
      match (if a = [] then some 0 else digitsVal a),
            (if b = [] then some 0 else digitsVal b) with
      | some ai, some bi => some (ai * 10 ^ b.length + bi, b.length)
      | _, _ => none

/-- Python `float(s)` on decimal literals `[sign] digits [. digits]`,
as an exact decimal. -/
def pyFloat (s : String) : Option PyDec :=
  match s.toList with
  | '-' :: rest => (pyFloatCore rest).map (fun p => ⟨-(p.1 : Int), p.2⟩)
  | '+' :: rest => (pyFloatCore rest).map (fun p => ⟨(p.1 : Int), p.2⟩)
  | l => (pyFloatCore l).map (fun p => ⟨(p.1 : Int), p.2⟩)

/-! ### `check_steps` (source lines 18-28)

The Python function converts with `int(arg)` inside a `try` block whose
handler catches only `ValueError`.  `argparse.ArgumentTypeError` derives from
`Exception`, not `ValueError`, so the error raised for an odd or too-small
integer escapes the `try` block directly; only the `int()` conversion failure
is rerouted to the "invalid check_steps value" message.  Failure of either
kind is modelled as `Except.error`. -/

/-- Checker for the steps argument (source `check_steps`). -/
def check_steps (s : String) : Except String Int :=
  match pyInt s with
  | some n =>
    if n % 2 = 0 ∧ 2 ≤ n then Except.ok n
    else Except.error (toString n ++ " is not a multiple of 2")
  | none => Except.error ("invalid check_steps value steps=" ++ s)

/-! ### The argparse surface (source lines 33-120)

Each argument is passed through its `type` converter; `device` and
`fastmath` additionally have `choices` lists.  No other constraint is
imposed by the parser: in particular there is no positivity check on the
float arguments, no lower bound on `nx`/`nt`, and no cross-field check
relating `uv` and `m`. -/

/-- Raw command-line argument strings, one per argparse argument with a
`type` converter (`--debug` is a bare flag and carries no converter). -/
structure RawArgs where
  output : String
  nx : String
  nt : String
  LL : String
  LT : String
  sqrts : String
  m : String
  uv : String
  steps : String
  device : String
  fastmath : String
deriving DecidableEq

/-- Parsed argument values, exactly the conversions argparse applies. -/
structure ParsedArgs where
  run : String
  nx : Int
  nt : Int
  LL : PyDec
  LT : PyDec
  sqrts : PyDec
  m : PyDec
  uv : PyDec
  steps : Int
  device : String
  fastmath : Int
deriving DecidableEq

/-- Lift an optional conversion result into the argparse error channel. -/
def conv {α : Type} (o : Option α) (msg : String) : Except String α :=
  match o with
  | some a => Except.ok a
  | none => Except.error msg

/-- The argparse conversion/validation pass over the raw argument strings,
in declaration order.  Mirrors the `parser.add_argument` calls of the
source: `int` for `nx`/`nt`, `float` for `LL`/`LT`/`sqrts`/`m`/`uv`,
`check_steps` for `steps`, `str` plus `choices=["cuda","numba","cython"]`
for `device`, `int` plus `choices=[0,1]` for `fastmath`. -/
def parseArgs (r : RawArgs) : Except String ParsedArgs := do
  let nx ← conv (pyInt r.nx) ("invalid int value: " ++ r.nx)
  let nt ← conv (pyInt r.nt) ("invalid int value: " ++ r.nt)
  let LL ← conv (pyFloat r.LL) ("invalid float value: " ++ r.LL)
  let LT ← conv (pyFloat r.LT) ("invalid float value: " ++ r.LT)
  let sqrts ← conv (pyFloat r.sqrts) ("invalid float value: " ++ r.sqrts)
  let m ← conv (pyFloat r.m) ("invalid float value: " ++ r.m)
  let uv ← conv (pyFloat r.uv) ("invalid float value: " ++ r.uv)
  let steps ← check_steps r.steps
  let device ←
    if r.device = "cuda" ∨ r.device = "numba" ∨ r.device = "cython" then
      Except.ok r.device
    else Except.error ("invalid choice: " ++ r.device)
  let fm ← conv (pyInt r.fastmath) ("invalid int value: " ++ r.fastmath)
  let fm ←
    if fm = 0 ∨ fm = 1 then Except.ok fm
    else Except.error ("invalid choice: " ++ r.fastmath)
  Except.ok ⟨r.output, nx, nt, LL, LT, sqrts, m, uv, steps, device, fm⟩

/-! ### The mock simulation loop (source lines 224-232)

`for it in range(max_iters): for step in range(args.steps): print(args.steps
* it + step)` — the emitted progress-record indices, in emission order. -/

/-- Fixed outer iteration count of the benchmark harness. -/
def max_iters : Nat := 20

/-- Indices emitted by one outer iteration `it`: the inner loop over
`range steps` printing `steps * it + step`. -/
def innerRecords (steps it : Nat) : List Nat :=
  (List.range steps).map (fun step => steps * it + step)

/-- All progress-record indices emitted by the nested loops, in order. -/
def progressRecords (steps : Nat) : List Nat :=
  ((List.range max_iters).map (innerRecords steps)).flatten

/-! ### The parameter-derivation block (source lines 194-216)

The Python computation is straight-line float arithmetic on the parsed
argument values; it is modelled over `ℝ`, with `**` as `Real.rpow`,
`np.sqrt` as `Real.sqrt` and `np.log` as `Real.log`. -/

/-- Inputs consumed by the derivation block: the fields of `args` it reads,
as real numbers. -/
structure InputSpec where
  nx : ℕ
  nt : ℕ
  LL : ℝ
  LT : ℝ
  sqrts : ℝ
  m : ℝ
  uv : ℝ
  steps : ℕ
  device : String
  fastmath : ℤ
  run : String

/-- The quantities computed by the derivation block. -/
structure DerivedParams where
  aT_fm : ℝ
  E0 : ℝ
  aT : ℝ
  aL_fm : ℝ
  aL : ℝ
  a : List ℝ
  dt : ℝ
  gamma : ℝ
  Qs : ℝ
  alphas : ℝ
  g : ℝ
  mu : ℝ
  uvt : ℝ
  ir : ℝ
  sigma : ℝ
  sigma_c : ℝ

/-- Constant `hbarc` [MeV*fm] (source line 195). -/
def hbarc : ℝ := 197.3270

/-- Gold nuclear radius [fm] (source line 196). -/
def RAu : ℝ := 7.27331

/-- The derivation block, line by line from the source:
`aT_fm = LT/nt`, `E0 = hbarc/aT_fm`, `aT = 1.0`, `aL_fm = LL/nx`,
`aL = aL_fm/aT_fm`, `a = [aL, aT, aT]`, `dt = aL/steps`,
`gamma = sqrts/2000.0`, `Qs = np.sqrt((sqrts/1000.0)**0.25)*1000.0`,
`alphas = 12.5664/(18.0*np.log(Qs/217.0))`, `g = np.sqrt(12.5664*alphas)`,
`mu = Qs/(g*g*0.75)/E0`, `uvt = uv/E0`, `ir = m/E0`,
`sigma = RAu/(2.0*gamma)/aL_fm*aL`, `sigma_c = sigma/aL`. -/
noncomputable def derive (i : InputSpec) : DerivedParams :=
  let aT_fm := i.LT / (i.nt : ℝ)
  let E0 := hbarc / aT_fm
  let aT : ℝ := 1.0
  let aL_fm := i.LL / (i.nx : ℝ)
  let aL := aL_fm / aT_fm
  let a := [aL, aT, aT]
  let dt := aL / (i.steps : ℝ)
  let gamma := i.sqrts / 2000.0
  let Qs := Real.sqrt ((i.sqrts / 1000.0) ^ (0.25 : ℝ)) * 1000.0
  let alphas := 12.5664 / (18.0 * Real.log (Qs / 217.0))
  let g := Real.sqrt (12.5664 * alphas)
  let mu := Qs / (g * g * 0.75) / E0
  let uvt := i.uv / E0
  let ir := i.m / E0
  let sigma := RAu / (2.0 * gamma) / aL_fm * aL
  let sigma_c := sigma / aL
  ⟨aT_fm, E0, aT, aL_fm, aL, a, dt, gamma, Qs, alphas, g, mu, uvt, ir,
    sigma, sigma_c⟩

/-- Default CLI values of the source (`nx=64, nt=256, LL=LT=6.0,
sqrts=200000.0, m=200.0, uv=10000.0, steps=4, device="cuda", fastmath=1`). -/
noncomputable def defaultSpec : InputSpec :=
  ⟨64, 256, 6.0, 6.0, 200000.0, 200.0, 10000.0, 4, "cuda", 1, "mv_full_bench"⟩

theorem derive_aT (i : InputSpec) : (derive i).aT = 1.0 := rfl

theorem derive_aT_fm (i : InputSpec) : (derive i).aT_fm = i.LT / (i.nt : ℝ) := rfl

theorem derive_aL_fm (i : InputSpec) : (derive i).aL_fm = i.LL / (i.nx : ℝ) := rfl

theorem derive_aL (i : InputSpec) :
    (derive i).aL = (derive i).aL_fm / (derive i).aT_fm := rfl

theorem derive_dt (i : InputSpec) :
    (derive i).dt = (derive i).aL / (i.steps : ℝ) := rfl

theorem derive_gamma (i : InputSpec) : (derive i).gamma = i.sqrts / 2000.0 := rfl

theorem derive_Qs (i : InputSpec) :
    (derive i).Qs = Real.sqrt ((i.sqrts / 1000.0) ^ (0.25 : ℝ)) * 1000.0 := rfl

theorem derive_alphas (i : InputSpec) :
    (derive i).alphas = 12.5664 / (18.0 * Real.log ((derive i).Qs / 217.0)) := rfl

/-! ### Environment-variable writes (source lines 122-127) and their
interaction with the derivation block

After `args = parser.parse_args()`, the script runs
`os.environ["MY_NUMBA_TARGET"] = args.device` and
`os.environ["FASTMATH"] = str(args.fastmath)`.  The derivation block
(lines 194-216) contains no further access to `os.environ`, so it is
modelled as passing the environment state through unchanged. -/

/-- The two environment variables the script touches. -/
structure Env where
  my_numba_target : Option String
  fastmath_var : Option String

/-- The two `os.environ` writes of lines 125-127: both variables are
overwritten with the resolved argument values. -/
def setEnvTokens (_e : Env) (device : String) (fastmath : ℤ) : Env :=
  ⟨some device, some (toString fastmath)⟩

/-- The derivation block as a state-passing step: lines 199-216 perform no
environment reads or writes, so the environment component is returned
unchanged alongside the derived parameters. -/
noncomputable def deriveWithEnv (e : Env) (i : InputSpec) : Env × DerivedParams :=
  (e, derive i)

/-! ### Helper lemmas -/

/-- Behaviour of `check_steps` when the integer conversion succeeds. -/
lemma check_steps_some (s : String) (n : Int) (h : pyInt s = some n) :
    check_steps s =
      if n % 2 = 0 ∧ 2 ≤ n then Except.ok n
      else Except.error (toString n ++ " is not a multiple of 2") := by
  rw [check_steps, h]

/-- Behaviour of `check_steps` when the integer conversion fails. -/
lemma check_steps_none (s : String) (h : pyInt s = none) :
    check_steps s = Except.error ("invalid check_steps value steps=" ++ s) := by
  rw [check_steps, h]

/-- One inner/outer loop round flattens to a contiguous range. -/
lemma progress_flatten (s m : ℕ) :
    ((List.range m).map (innerRecords s)).flatten = List.range (m * s) := by
  induction m with
  | zero => simp
  | succ k ih =>
    rw [List.range_succ, List.map_append, List.flatten_append, ih]
    simp only [List.map_cons, List.map_nil, List.flatten_cons, List.flatten_nil,
      List.append_nil]
    rw [Nat.succ_mul, List.range_add]
    congr 1
    have harg : (fun step => s * k + step) = (fun x => k * s + x) := by
      funext x
      rw [Nat.mul_comm]
    rw [innerRecords, harg]

/-- Square root of a fourth root is an eighth root, on nonnegative reals. -/
lemma sqrt_rpow_quarter (x : ℝ) (hx : 0 ≤ x) :
    Real.sqrt (x ^ (0.25 : ℝ)) = x ^ ((8 : ℝ)⁻¹) := by
  rw [Real.sqrt_eq_rpow, ← Real.rpow_mul hx]
  norm_num

/-- The saturation scale computed by the source, in closed form. -/
lemma qs_closed_form (i : InputSpec) (h : 0 ≤ i.sqrts) :
    (derive i).Qs = (i.sqrts / 1000.0) ^ ((8 : ℝ)⁻¹) * 1000.0 := by
  rw [derive_Qs, sqrt_rpow_quarter _ (by positivity)]

/-- Eighth root of 200 de-exponentiated: its 8th power is 200. -/
lemma two_hundred_eighth_pow : ((200 : ℝ) ^ ((8 : ℝ)⁻¹)) ^ (8 : ℕ) = 200 := by
  rw [← Real.rpow_natCast ((200 : ℝ) ^ ((8 : ℝ)⁻¹)) 8, ← Real.rpow_mul (by norm_num)]
  norm_num

/-- Numeric bounds on the eighth root of 200. -/
lemma two_hundred_eighth_bounds :
    (1939 / 1000 : ℝ) < (200 : ℝ) ^ ((8 : ℝ)⁻¹) ∧
    (200 : ℝ) ^ ((8 : ℝ)⁻¹) < (1940 / 1000 : ℝ) := by
  constructor
  · refine lt_of_pow_lt_pow_left₀ 8 (le_of_lt (Real.rpow_pos_of_pos (by norm_num) _)) ?_
    rw [two_hundred_eighth_pow]
    norm_num
  · refine lt_of_pow_lt_pow_left₀ 8 (by norm_num) ?_
    rw [two_hundred_eighth_pow]
    norm_num

/-- The saturation scale at the default inputs. -/
lemma qs_default : (derive defaultSpec).Qs = (200 : ℝ) ^ ((8 : ℝ)⁻¹) * 1000.0 := by
  rw [qs_closed_form defaultSpec (by norm_num [defaultSpec])]
  norm_num [defaultSpec]

/-! ### Concrete CLI inputs used by the claims about validation -/

/-- Default CLI strings with `m=200.0` and `uv=100.0`, so that `uv ≤ m`. -/
def uvLeMRaw : RawArgs :=
  ⟨"mv_full_bench", "64", "256", "6.0", "6.0", "200000.0", "200.0", "100.0",
    "4", "cuda", "1"⟩

/-- CLI strings with `nx=1`, `nt=1`, `LL=-1.0`, `LT=0.0`, `sqrts=-5.0`,
`m=0.0`, `uv=0.0`: every range rule of the spec violated at once. -/
def outOfRangeRaw : RawArgs :=
  ⟨"mv_full_bench", "1", "1", "-1.0", "0.0", "-5.0", "0.0", "0.0",
    "4", "cuda", "1"⟩

/-- Low-energy inputs: `sqrts = 1000/16777216` MeV, whose saturation scale
is exactly 125 MeV, below the 217 MeV QCD scale in the logarithm. -/
noncomputable def lowSpec : InputSpec :=
  ⟨64, 256, 6.0, 6.0, 1000 / 16777216, 200.0, 10000.0, 4, "cuda", 1,
    "mv_full_bench"⟩

/-- Saturation-scale formula exactly as the spec words it:
`Qs = (sqrts/1000.0)^0.25 * 1000.0`. -/
noncomputable def specQs (s : ℝ) : ℝ := (s / 1000.0) ^ (0.25 : ℝ) * 1000.0

/-! ### Claim theorems -/

/-- Claim C1, counterexample: at the default input `sqrts = 200000.0` the
source's saturation scale differs from the spec's formula
`(sqrts/1000.0)^0.25 * 1000.0`: the code takes an extra square root, and
the resulting value is below 2000, not ≈ 3761.6. -/
theorem qs_formula_counterexample :
    (derive defaultSpec).Qs ≠ specQs 200000.0 ∧ (derive defaultSpec).Qs < 2000 := by
  have hspec : specQs 200000.0 = (200 : ℝ) ^ (0.25 : ℝ) * 1000.0 := by
    rw [specQs]
    norm_num
  have hlt : (200 : ℝ) ^ ((8 : ℝ)⁻¹) < (200 : ℝ) ^ (0.25 : ℝ) := by
    rw [Real.rpow_lt_rpow_left_iff (by norm_num : (1:ℝ) < 200)]
    norm_num
  constructor
  · rw [qs_default, hspec]
    exact ne_of_lt (by nlinarith)
  · rw [qs_default]
    nlinarith [two_hundred_eighth_bounds.2]

/-- Claim C1, amended: for every input with `sqrts ≥ 0` the source computes
`Qs = sqrt((sqrts/1000.0)^0.25) * 1000.0 = (sqrts/1000.0)^(1/8) * 1000.0`;
at `sqrts = 200000.0` this gives `200^(1/8) * 1000 ≈ 1939.2` MeV, pinned
here between 1939 and 1940. -/
theorem qs_eighth_root_formula (i : InputSpec) (h : 0 ≤ i.sqrts) :
    (derive i).Qs = (i.sqrts / 1000.0) ^ ((8 : ℝ)⁻¹) * 1000.0 ∧
    1939 < (derive defaultSpec).Qs ∧ (derive defaultSpec).Qs < 1940 := by
  refine ⟨qs_closed_form i h, ?_, ?_⟩
  · rw [qs_default]
    nlinarith [two_hundred_eighth_bounds.1]
  · rw [qs_default]
    nlinarith [two_hundred_eighth_bounds.2]

/-- Witness for C1 amended, at the default inputs. -/
theorem qs_eighth_root_formula_witness :
    (0 : ℝ) ≤ defaultSpec.sqrts ∧
    ((derive defaultSpec).Qs = (defaultSpec.sqrts / 1000.0) ^ ((8 : ℝ)⁻¹) * 1000.0 ∧
      1939 < (derive defaultSpec).Qs ∧ (derive defaultSpec).Qs < 1940) :=
  ⟨by norm_num [defaultSpec],
    qs_eighth_root_formula defaultSpec (by norm_num [defaultSpec])⟩

/-- Claim C2: the code at the failing input. At `sqrts = 1000/16777216`
the derived `Qs` is 125 ≤ 217, and the source's unguarded
`12.5664/(18.0*log(Qs/217.0))` silently yields a negative coupling —
no `DerivationError` exists anywhere in the code. -/
theorem alphas_negative_at_low_energy :
    (derive lowSpec).Qs = 125 ∧ (derive lowSpec).Qs ≤ 217 ∧
    (derive lowSpec).alphas < 0 := by
  have hq : (derive lowSpec).Qs = 125 := by
    rw [qs_closed_form lowSpec (by norm_num [lowSpec])]
    have hx : lowSpec.sqrts / 1000.0 = ((1 : ℝ) / 8) ^ (8 : ℕ) := by
      norm_num [lowSpec]
    rw [hx, ← Real.rpow_natCast ((1 : ℝ) / 8) 8, ← Real.rpow_mul (by norm_num)]
    norm_num
  refine ⟨hq, by rw [hq]; norm_num, ?_⟩
  rw [derive_alphas, hq]
  have hlog : Real.log ((125 : ℝ) / 217.0) < 0 :=
    Real.log_neg (by norm_num) (by norm_num)
  exact div_neg_of_pos_of_neg (by norm_num)
    (mul_neg_of_pos_of_neg (by norm_num) hlog)

/-- Claim C3: for every input the derived lattice quantities satisfy
`aT = 1.0`, `aL = (LL/nx)/(LT/nt)` and `dt = aL/steps`, exactly as
computed by the source. -/
theorem lattice_spacings_exact (i : InputSpec) :
    (derive i).aT = 1.0 ∧
    (derive i).aL = (i.LL / (i.nx : ℝ)) / (i.LT / (i.nt : ℝ)) ∧
    (derive i).dt = (derive i).aL / (i.steps : ℝ) :=
  ⟨rfl, rfl, rfl⟩

/-- Claim C4: for every steps value the run loop emits exactly
`max_iters*steps` progress records whose indices `steps*it + step` form the
range `0..max_iters*steps-1` in ascending order; with `steps=4` that is
exactly the 80 indices `0..79`, each exactly once, ascending. -/
theorem runloop_emits_range :
    (∀ steps : ℕ, progressRecords steps = List.range (max_iters * steps) ∧
      (progressRecords steps).length = max_iters * steps) ∧
    progressRecords 4 = List.range 80 ∧
    (progressRecords 4).length = 80 ∧
    (progressRecords 4).Nodup ∧
    List.Pairwise (· < ·) (progressRecords 4) := by
  have hgen : ∀ steps : ℕ, progressRecords steps = List.range (max_iters * steps) :=
    fun steps => progress_flatten steps max_iters
  refine ⟨fun steps => ⟨hgen steps, ?_⟩, by decide, by decide, by decide, by decide⟩
  rw [hgen steps, List.length_range]

/-- Claim C5: `check_steps` succeeds exactly on strings parsing to an even
integer ≥ 2; it accepts 2, 4, 6, 100 and rejects 3, 5, 1, 0, -2, "abc". -/
theorem check_steps_accepts_iff :
    (∀ s : String, (∃ n, check_steps s = Except.ok n) ↔
      (∃ n, pyInt s = some n ∧ n % 2 = 0 ∧ 2 ≤ n)) ∧
    check_steps "2" = Except.ok 2 ∧ check_steps "4" = Except.ok 4 ∧
    check_steps "6" = Except.ok 6 ∧ check_steps "100" = Except.ok 100 ∧
    (check_steps "3").isOk = false ∧ (check_steps "5").isOk = false ∧
    (check_steps "1").isOk = false ∧ (check_steps "0").isOk = false ∧
    (check_steps "-2").isOk = false ∧ (check_steps "abc").isOk = false := by
  refine ⟨fun s => ?_, by decide, by decide, by decide, by decide, by decide,
    by decide, by decide, by decide, by decide, by decide⟩
  cases h : pyInt s with
  | none =>
    rw [check_steps_none s h]
    constructor
    · rintro ⟨m, hm⟩
      exact Except.noConfusion hm
    · rintro ⟨m, hm, _, _⟩
      exact Option.noConfusion hm
  | some n =>
    rw [check_steps_some s n h]
    by_cases hc : n % 2 = 0 ∧ 2 ≤ n
    · rw [if_pos hc]
      constructor
      · intro _
        exact ⟨n, rfl, hc.1, hc.2⟩
      · intro _
        exact ⟨n, rfl⟩
    · rw [if_neg hc]
      constructor
      · rintro ⟨m, hm⟩
        exact Except.noConfusion hm
      · rintro ⟨m, hm, h1, h2⟩
        have he : n = m := Option.some.inj hm
        subst he
        exact absurd ⟨h1, h2⟩ hc

/-- Claim C6, counterexample: the input with `uv = 100.0 ≤ m = 200.0` (all
other arguments at their defaults) passes the whole argparse validation,
so the invariant `uv > m` is not enforced at parse time. -/
theorem uv_le_m_accepted_counterexample :
    pyFloat "100.0" = some ⟨1000, 1⟩ ∧ pyFloat "200.0" = some ⟨2000, 1⟩ ∧
    PyDec.val ⟨1000, 1⟩ ≤ PyDec.val ⟨2000, 1⟩ ∧
    (parseArgs uvLeMRaw).isOk = true :=
  ⟨by decide, by decide, by norm_num [PyDec.val], by decide⟩

/-- Claim C6, amended: the parser applies only per-field conversions; no
cross-field check relates `uv` and `m`, so `uv=100, m=200` parses
successfully with both values passed through. -/
theorem uv_le_m_no_crossfield_check :
    parseArgs uvLeMRaw = Except.ok
      ⟨"mv_full_bench", 64, 256, ⟨60, 1⟩, ⟨60, 1⟩, ⟨2000000, 1⟩, ⟨2000, 1⟩,
        ⟨1000, 1⟩, 4, "cuda", 1⟩ ∧
    PyDec.val ⟨1000, 1⟩ = 100 ∧ PyDec.val ⟨2000, 1⟩ = 200 :=
  ⟨by decide, by norm_num [PyDec.val], by norm_num [PyDec.val]⟩

/-- Claim C7, counterexample: an input with `nx=1`, `nt=1`, `LL=-1.0`,
`LT=0.0`, `sqrts=-5.0`, `m=0.0`, `uv=0.0` — zero/negative box sizes,
energy and regulators, and grid sizes below 2 — passes the whole argparse
validation instead of failing. -/
theorem out_of_range_accepted_counterexample :
    PyDec.val ⟨-10, 1⟩ < 0 ∧ PyDec.val ⟨0, 1⟩ = 0 ∧
    (parseArgs outOfRangeRaw).isOk = true :=
  ⟨by norm_num [PyDec.val], by norm_num [PyDec.val], by decide⟩

/-- Claim C7, amended: the argparse layer performs type conversion only on
the geometry/energy/regulator/grid fields; zero or negative floats and
grid sizes below 2 parse successfully, with all values passed through. -/
theorem no_range_validation :
    parseArgs outOfRangeRaw = Except.ok
      ⟨"mv_full_bench", 1, 1, ⟨-10, 1⟩, ⟨0, 1⟩, ⟨-50, 1⟩, ⟨0, 1⟩, ⟨0, 1⟩,
        4, "cuda", 1⟩ ∧
    PyDec.val ⟨-10, 1⟩ = -1 ∧ PyDec.val ⟨-50, 1⟩ = -5 :=
  ⟨by decide, by norm_num [PyDec.val], by norm_num [PyDec.val]⟩

/-- Claim C8: the derivation block is a pure function of the parsed inputs:
identical `InputSpec` values give identical `DerivedParams`. -/
theorem derive_deterministic (i j : InputSpec) (h : i = j) : derive i = derive j :=
  congrArg derive h

/-- Witness for C8 at the default inputs. -/
theorem derive_deterministic_witness :
    derive defaultSpec = derive defaultSpec :=
  derive_deterministic defaultSpec defaultSpec rfl

/-- Claim C9: after the two environment writes, `MY_NUMBA_TARGET` holds
exactly the resolved device value, and the derivation step leaves both
environment tokens unchanged. -/
theorem backend_token_roundtrip (e : Env) (d : String) (fm : ℤ) (i : InputSpec) :
    (setEnvTokens e d fm).my_numba_target = some d ∧
    (deriveWithEnv (setEnvTokens e d fm) i).1 = setEnvTokens e d fm ∧
    (deriveWithEnv (setEnvTokens e d fm) i).1.my_numba_target = some d ∧
    (deriveWithEnv (setEnvTokens e d fm) i).1.fastmath_var =
      (setEnvTokens e d fm).fastmath_var ∧
    (deriveWithEnv (setEnvTokens e d fm) i).2 = derive i :=
  ⟨rfl, rfl, rfl, rfl, rfl⟩

/-- Claim C10: whenever `check_steps` returns normally its result is the
integer parse of its argument, even and ≥ 2. The odd/too-small error is an
`ArgumentTypeError`, which the `except ValueError` handler does not catch
(it is modelled here as escaping directly), so no invalid value reaches
the success path. -/
theorem check_steps_success_sound (s : String) (n : Int)
    (h : check_steps s = Except.ok n) :
    pyInt s = some n ∧ n % 2 = 0 ∧ 2 ≤ n := by
  cases hp : pyInt s with
  | none =>
    rw [check_steps_none s hp] at h
    exact Except.noConfusion h
  | some k =>
    rw [check_steps_some s k hp] at h
    by_cases hc : k % 2 = 0 ∧ 2 ≤ k
    · rw [if_pos hc] at h
      have hkn : k = n := Except.ok.inj h
      subst hkn
      exact ⟨rfl, hc.1, hc.2⟩
    · rw [if_neg hc] at h
      exact Except.noConfusion h

/-- Witness for C10 at the string "4". -/
theorem check_steps_success_sound_witness :
    check_steps "4" = Except.ok 4 ∧
    (pyInt "4" = some 4 ∧ (4 : Int) % 2 = 0 ∧ 2 ≤ (4 : Int)) :=
  ⟨by decide, check_steps_success_sound "4" 4 (by decide)⟩

end MvTestSetup
